import Mathlib

/-!
Verification development for the gesture-driven 3D particle scene.

The embedding translates the animation/gesture logic of the sources:
- `src/App.tsx` : the formation state machine over `TreeState`;
- `src/components/HandTracker.tsx` : the gesture classifier in `hands.onResults`;
- `src/components/Scene3D.tsx` : per-frame update laws of the instance
  populations (ornaments, base ripple, meteors, snowfall, top star) and the
  camera controller.

JavaScript numbers are modelled as real numbers; a thrown TypeError is
modelled as `none` of an `Option` result; each call of `Math.random()` is
modelled as an explicit oracle argument in `[0, 1)`.
-/

open Real

/-- The enum `TreeState` of `src/types.ts` (the spec's GATHERED is `CLOSED`). -/
inductive TreeState where
  | CLOSED
  | SCATTERED
deriving DecidableEq

/-- A 2D point with `x`/`y` fields, as the MediaPipe landmark objects and the
`position` field of `HandData` in `src/types.ts`. -/
structure Point2 where
  x : ℝ
  y : ℝ

/-- A triple of reals with `x`/`y`/`z` fields, used for the `rotation` field of
`HandData` and for 3D positions in `Scene3D.tsx`. -/
structure Vec3 where
  x : ℝ
  y : ℝ
  z : ℝ

/-- The interface `HandData` of `src/types.ts`. -/
structure HandData where
  isOpen : Bool
  rotation : Vec3
  position : Point2
  detected : Bool

/-- The helper `lerp(a, b, t) = a + (b - a) * t` of `Scene3D.tsx`. -/
def lerp (a b t : ℝ) : ℝ := a + (b - a) * t

/-- The transition effect of `App.tsx` (lines 18-26): given the current
`treeState` and the latest `handData`, the `useEffect` body computes the next
`treeState`. -/
def appStep (treeState : TreeState) (handData : HandData) : TreeState :=
  if handData.detected then
    if handData.isOpen ∧ treeState = TreeState.CLOSED then TreeState.SCATTERED
    else if handData.isOpen = false ∧ treeState = TreeState.SCATTERED then TreeState.CLOSED
    else treeState
  else treeState

/-- Euclidean distance between two landmark points, as computed inside the
`reduce` of `HandTracker.tsx`: `Math.sqrt(dx * dx + dy * dy)`. -/
noncomputable def euclidDist (a b : Point2) : ℝ :=
  Real.sqrt ((a.x - b.x) * (a.x - b.x) + (a.y - b.y) * (a.y - b.y))

/-- The `avgDist` of `HandTracker.tsx`: the mean of the distances from the four
fingertip landmarks (indices 8, 12, 16, 20) to the wrist landmark (index 0). -/
noncomputable def avgDistOf (wrist t8 t12 t16 t20 : Point2) : ℝ :=
  (euclidDist t8 wrist + euclidDist t12 wrist + euclidDist t16 wrist +
    euclidDist t20 wrist) / 4

/-- JavaScript `Math.atan2(y, x)`, via the complex argument. -/
noncomputable def jsAtan2 (y x : ℝ) : ℝ := Complex.arg ⟨x, y⟩

open scoped Classical in
/-- The landmark-processing branch of `hands.onResults` in `HandTracker.tsx`
(lines 39-64): reads landmarks 0, 8, 12, 16, 20 and 9 of the first hand and
builds the `HandData` passed to `onHandUpdate`. Indexing past the end of the
landmark array yields `undefined` in JavaScript and the subsequent `.x` access
throws a TypeError; that crash is modelled as `none`. -/
noncomputable def classifyHand (landmarks : List Point2) : Option HandData :=
  match landmarks.get? 0, landmarks.get? 8, landmarks.get? 12,
      landmarks.get? 16, landmarks.get? 20, landmarks.get? 9 with
  | some wrist, some t8, some t12, some t16, some t20, some middleBase =>
      some
        { isOpen := if avgDistOf wrist t8 t12 t16 t20 > 0.35 then true else false
          rotation :=
            ⟨(middleBase.y - wrist.y) * 2, (middleBase.x - wrist.x) * 2,
              jsAtan2 (middleBase.y - wrist.y) (middleBase.x - wrist.x)⟩
          position := ⟨middleBase.x, middleBase.y⟩
          detected := true }
  | _, _, _, _, _, _ => none

/-- The `HandData` reported by `HandTracker.tsx` when no hand is detected. -/
def notDetectedHand : HandData :=
  { isOpen := false, rotation := ⟨0, 0, 0⟩, position := ⟨0, 0⟩, detected := false }

/-- The whole `hands.onResults` gesture logic of `HandTracker.tsx`: if
`multiHandLandmarks` is empty the not-detected `HandData` is reported,
otherwise the first hand's landmark list is classified (`none` models a
thrown TypeError on an incomplete landmark list). -/
noncomputable def onResults (multiHandLandmarks : List (List Point2)) : Option HandData :=
  match multiHandLandmarks with
  | [] => some notDetectedHand
  | landmarks :: _ => classifyHand landmarks

/-- A well-formed 21-landmark frame used as a concrete test input. -/
def sampleFrame : List Point2 := List.replicate 21 ⟨0, 0⟩

/-- Squared euclidean distance between two 3D points. -/
def dist2 (p q : Vec3) : ℝ :=
  (p.x - q.x) * (p.x - q.x) + (p.y - q.y) * (p.y - q.y) + (p.z - q.z) * (p.z - q.z)

/-- Euclidean distance between two 3D points. -/
noncomputable def dist3 (p q : Vec3) : ℝ := Real.sqrt (dist2 p q)

/-- One frame of the per-instance position smoothing of `EmojiLayer` in
`Scene3D.tsx` (lines 412-419): each coordinate of the interpolated position is
lerped toward the target coordinate with factor `t = delta * 2.5`. -/
def emojiStepPos (p target : Vec3) (delta : ℝ) : Vec3 :=
  ⟨lerp p.x target.x (delta * 2.5), lerp p.y target.y (delta * 2.5),
    lerp p.z target.z (delta * 2.5)⟩

/-- The interpolated position after `n` frames of `EmojiLayer` smoothing with a
fixed target and constant `delta`. -/
def emojiPosSeq (p0 target : Vec3) (delta : ℝ) : ℕ → Vec3
  | 0 => p0
  | n + 1 => emojiStepPos (emojiPosSeq p0 target delta n) target delta

open scoped Classical in
/-- JavaScript `Math.trunc`-style integer part (round toward zero), as used by
the JavaScript `%` operator. -/
noncomputable def jsTrunc (x : ℝ) : ℤ := if x < 0 then ⌈x⌉ else ⌊x⌋

/-- The JavaScript remainder `a % b`: truncated division, sign of the
dividend. -/
noncomputable def jsMod (a b : ℝ) : ℝ := a - b * jsTrunc (a / b)

open scoped Classical in
/-- The scale assigned to a ripple instance by the `useFrame` body of
`BaseRipple` in `Scene3D.tsx` (lines 281-326): with `staggerTime = 0.9`,
`cycleDuration = 6.5` and `activeWindow = 3.0`, the instance is scaled to zero
before its ring's start time and outside `progress ∈ [0, 1]`, and otherwise to
`(0.08 + randomOffset * 0.15) * max 0 (1 - progress)`. -/
noncomputable def rippleScale (ringIndex : ℕ) (randomOffset time : ℝ) : ℝ :=
  if time < (ringIndex : ℝ) * 0.9 then 0
  else if jsMod (time - (ringIndex : ℝ) * 0.9) 6.5 / 3.0 > 1 ∨
      jsMod (time - (ringIndex : ℝ) * 0.9) 6.5 / 3.0 < 0 then 0
  else (0.08 + randomOffset * 0.15) * max 0 (1 - jsMod (time - (ringIndex : ℝ) * 0.9) 6.5 / 3.0)

/-- The ornament type literals of `src/types.ts`. -/
inductive OrnamentType where
  | sphere
  | box
  | cone

/-- The interface `OrnamentData` of `src/types.ts`. -/
structure OrnamentData where
  initialPos : Vec3
  treePos : Vec3
  scatterPos : Vec3
  type : OrnamentType
  color : String
  size : ℝ

/-- The scale computation of `EmojiLayer` in `Scene3D.tsx` (lines 437-439):
the scale written for an instance is lerped from `dummy.scale.x` - the scale
of the shared temporary `Object3D`, whatever it holds when the instance is
processed - toward `size` (CLOSED) or `size * 2.0` (SCATTERED), with factor
`t = delta * 2.5`. -/
def emojiScaleStep (dummyScale : ℝ) (o : OrnamentData) (treeState : TreeState)
    (delta : ℝ) : ℝ :=
  lerp dummyScale (if treeState = TreeState.CLOSED then o.size else o.size * 2.0)
    (delta * 2.5)

/-- The scales written by one `useFrame` pass of `EmojiLayer` over its data
array: the shared `dummy` threads its `scale.x` from each instance to the next
(and, across frames, from the last instance of one frame to the first of the
next). Returns the written scales and the dummy's final scale. -/
def emojiFrameScales (data : List OrnamentData) (treeState : TreeState)
    (delta dummyScale : ℝ) : List ℝ × ℝ :=
  match data with
  | [] => ([], dummyScale)
  | o :: rest =>
      let s := emojiScaleStep dummyScale o treeState delta
      let r := emojiFrameScales rest treeState delta s
      (s :: r.1, r.2)

/-- One `useFrame` pass of `CameraController` in `Scene3D.tsx` (lines 509-523):
if a hand is detected, `targetCameraRotation` is retargeted from the hand
position, otherwise kept; then the camera position is lerped with factor
`delta * 3` toward the orbit point at distance 32, and the camera looks at the
origin. Returns the new camera position, the new target rotation pair (field
`x` is the pitch proxy, field `y` the yaw) and the look-at point. -/
noncomputable def cameraFrame (camPos : Vec3) (targetRot : Point2)
    (handData : HandData) (delta : ℝ) : Vec3 × Point2 × Vec3 :=
  let tr : Point2 :=
    if handData.detected then
      ⟨(handData.position.y - 0.5) * Real.pi * 0.5,
        (handData.position.x - 0.5) * Real.pi⟩
    else targetRot
  (⟨lerp camPos.x (32 * Real.sin tr.y) (delta * 3),
      lerp camPos.y (tr.x * 20 + 7) (delta * 3),
      lerp camPos.z (32 * Real.cos tr.y) (delta * 3)⟩,
    tr, ⟨0, 0, 0⟩)

/-- A snowfall instance record, as seeded in `Snowfall` of `Scene3D.tsx`. -/
structure SnowInst where
  x : ℝ
  y : ℝ
  z : ℝ
  speed : ℝ
  offset : ℝ
  size : ℝ
  rotSpeed : ℝ

/-- The per-instance state update of the `useFrame` body of `Snowfall` in
`Scene3D.tsx` (lines 382-397): gravity `s.y -= s.speed * delta * 2`, then the
respawn check `if (s.y < -20)` resetting `y` to 30 and redrawing `x` and `z`;
`rx` and `rz` are the two `Math.random()` draws of the respawn branch. -/
noncomputable def snowStep (s : SnowInst) (delta rx rz : ℝ) : SnowInst :=
  if s.y - s.speed * delta * 2 < -20 then
    { s with y := 30, x := (rx - 0.5) * 60, z := (rz - 0.5) * 60 }
  else
    { s with y := s.y - s.speed * delta * 2 }

/-- `Scene3D` renders `<Snowfall />` with no props: the scene's per-frame
inputs `treeState` and `handData` are in scope in `Scene3D` but neither is
passed to the snowfall population, so its update ignores both. -/
noncomputable def snowfallInScene (treeState : TreeState) (handData : HandData) (s : SnowInst)
    (delta rx rz : ℝ) : SnowInst :=
  snowStep s delta rx rz

/-- The opacity smoothing of one `useFrame` pass of `TreeTopStar` in
`Scene3D.tsx` (lines 213-224): `opacityRef` is lerped toward 1 (CLOSED) or 0
(SCATTERED) with factor `delta * 3`; `delta` is used as delivered, with no
clamping. -/
def starOpacityStep (opacity : ℝ) (treeState : TreeState) (delta : ℝ) : ℝ :=
  lerp opacity (if treeState = TreeState.CLOSED then 1 else 0) (delta * 3)

/-- The scale assigned to a meteor instance by the `useFrame` body of
`MeteorShower` in `Scene3D.tsx` (lines 348-367):
`m.size * pulse * (isClosed ? 1 : 0.3)` with
`pulse = 1 + Math.sin(time * 3 + m.phase) * 0.3`. -/
noncomputable def meteorScale (size phase time : ℝ) (treeState : TreeState) : ℝ :=
  size * (1 + Real.sin (time * 3 + phase) * 0.3) *
    (if treeState = TreeState.CLOSED then 1 else 0.3)

/-- C1: the formation state machine of `App.tsx` steps as the spec states:
CLOSED (the spec's GATHERED) goes to SCATTERED on a detected open hand,
SCATTERED goes to CLOSED on a detected closed hand, and an undetected signal
leaves the state unchanged regardless of `isOpen`. -/
theorem appStep_formation_transitions (hd : HandData) (ts : TreeState) :
    (hd.detected = true → hd.isOpen = true → ts = TreeState.CLOSED →
      appStep ts hd = TreeState.SCATTERED) ∧
    (hd.detected = true → hd.isOpen = false → ts = TreeState.SCATTERED →
      appStep ts hd = TreeState.CLOSED) ∧
    (hd.detected = false → appStep ts hd = ts) := by
  refine ⟨fun h1 h2 h3 => ?_, fun h1 h2 h3 => ?_, fun h1 => ?_⟩
  · subst h3; simp [appStep, h1, h2]
  · subst h3; simp [appStep, h1, h2]
  · simp [appStep, h1]

/-- Witness for C1: the three transition rules evaluated at concrete signals. -/
theorem appStep_formation_transitions_witness :
    appStep TreeState.CLOSED ⟨true, ⟨0, 0, 0⟩, ⟨0, 0⟩, true⟩ = TreeState.SCATTERED ∧
    appStep TreeState.SCATTERED ⟨false, ⟨0, 0, 0⟩, ⟨0, 0⟩, true⟩ = TreeState.CLOSED ∧
    appStep TreeState.SCATTERED ⟨true, ⟨0, 0, 0⟩, ⟨0, 0⟩, false⟩ = TreeState.SCATTERED :=
  ⟨(appStep_formation_transitions _ _).1 rfl rfl rfl,
   (appStep_formation_transitions _ _).2.1 rfl rfl rfl,
   (appStep_formation_transitions _ _).2.2 rfl⟩

/-- C2: whenever a hand is detected (all required landmarks present), the
classifier sets `isOpen` to true exactly when `avgDist > 0.35`; in particular
`avgDist = 0.35` yields `isOpen = false`. -/
theorem classifyHand_isOpen_iff (lm : List Point2) (w t8 t12 t16 t20 mb : Point2)
    (h0 : lm.get? 0 = some w) (h8 : lm.get? 8 = some t8) (h12 : lm.get? 12 = some t12)
    (h16 : lm.get? 16 = some t16) (h20 : lm.get? 20 = some t20)
    (h9 : lm.get? 9 = some mb) :
    ∃ hd : HandData, classifyHand lm = some hd ∧ hd.detected = true ∧
      (hd.isOpen = true ↔ avgDistOf w t8 t12 t16 t20 > 0.35) ∧
      (avgDistOf w t8 t12 t16 t20 = 0.35 → hd.isOpen = false) := by
  refine ⟨{ isOpen := if avgDistOf w t8 t12 t16 t20 > 0.35 then true else false
            rotation := ⟨(mb.y - w.y) * 2, (mb.x - w.x) * 2, jsAtan2 (mb.y - w.y) (mb.x - w.x)⟩
            position := ⟨mb.x, mb.y⟩
            detected := true }, ?_, rfl, ?_, ?_⟩
  · unfold classifyHand
    rw [h0, h8, h12, h16, h20, h9]
  · by_cases h : avgDistOf w t8 t12 t16 t20 > 0.35 <;> simp [h]
  · intro heq
    simp only [heq]
    rw [if_neg (lt_irrefl (0.35 : ℝ))]

/-- Witness for C2 on a concrete 21-landmark frame. -/
theorem classifyHand_isOpen_iff_witness :
    ∃ hd : HandData, classifyHand sampleFrame = some hd ∧ hd.detected = true ∧
      (hd.isOpen = true ↔ avgDistOf ⟨0, 0⟩ ⟨0, 0⟩ ⟨0, 0⟩ ⟨0, 0⟩ ⟨0, 0⟩ > 0.35) ∧
      (avgDistOf ⟨0, 0⟩ ⟨0, 0⟩ ⟨0, 0⟩ ⟨0, 0⟩ ⟨0, 0⟩ = 0.35 → hd.isOpen = false) :=
  classifyHand_isOpen_iff sampleFrame ⟨0, 0⟩ ⟨0, 0⟩ ⟨0, 0⟩ ⟨0, 0⟩ ⟨0, 0⟩ ⟨0, 0⟩
    rfl rfl rfl rfl rfl rfl

/-- C4 (code bug evidence): a frame containing one hand with a single landmark
point makes `onResults` crash (TypeError on `landmarks[8].x`, modelled `none`)
instead of producing the not-detected output required by the spec. -/
theorem onResults_short_frame_crashes :
    onResults [[⟨0, 0⟩]] = none ∧ onResults [[⟨0, 0⟩]] ≠ some notDetectedHand := by
  constructor
  · rfl
  · intro h
    simp [onResults, classifyHand] at h

/-- Helper: squared distance is non-negative. -/
lemma dist2_nonneg (p q : Vec3) : 0 ≤ dist2 p q := by
  unfold dist2
  nlinarith [mul_self_nonneg (p.x - q.x), mul_self_nonneg (p.y - q.y),
    mul_self_nonneg (p.z - q.z)]

/-- Helper: distinct points are at positive squared distance. -/
lemma dist2_pos_of_ne (p q : Vec3) (h : p ≠ q) : 0 < dist2 p q := by
  rcases lt_or_eq_of_le (dist2_nonneg p q) with hlt | heq
  · exact hlt
  · exfalso
    apply h
    have hx : (p.x - q.x) * (p.x - q.x) = 0 := by
      unfold dist2 at heq
      nlinarith [mul_self_nonneg (p.x - q.x), mul_self_nonneg (p.y - q.y),
        mul_self_nonneg (p.z - q.z)]
    have hy : (p.y - q.y) * (p.y - q.y) = 0 := by
      unfold dist2 at heq
      nlinarith [mul_self_nonneg (p.x - q.x), mul_self_nonneg (p.y - q.y),
        mul_self_nonneg (p.z - q.z)]
    have hz : (p.z - q.z) * (p.z - q.z) = 0 := by
      unfold dist2 at heq
      nlinarith [mul_self_nonneg (p.x - q.x), mul_self_nonneg (p.y - q.y),
        mul_self_nonneg (p.z - q.z)]
    cases p
    cases q
    simp only [Vec3.mk.injEq]
    refine ⟨?_, ?_, ?_⟩ <;>
      [skip; skip; skip] <;>
      first
        | exact sub_eq_zero.mp (mul_self_eq_zero.mp hx)
        | exact sub_eq_zero.mp (mul_self_eq_zero.mp hy)
        | exact sub_eq_zero.mp (mul_self_eq_zero.mp hz)

/-- Helper: one `EmojiLayer` smoothing frame scales the squared distance to the
target by exactly `(1 - 2.5 * delta)^2`. -/
lemma dist2_emojiStepPos (p target : Vec3) (delta : ℝ) :
    dist2 (emojiStepPos p target delta) target =
      (1 - delta * 2.5) ^ 2 * dist2 p target := by
  unfold emojiStepPos lerp dist2
  ring

/-- Helper: squared distance after `n` smoothing frames decays geometrically. -/
lemma dist2_emojiPosSeq (p0 target : Vec3) (delta : ℝ) (n : ℕ) :
    dist2 (emojiPosSeq p0 target delta n) target =
      ((1 - delta * 2.5) ^ 2) ^ n * dist2 p0 target := by
  induction n with
  | zero => simp [emojiPosSeq]
  | succ n ih =>
      rw [emojiPosSeq, dist2_emojiStepPos, ih]
      ring

/-- C3 counterexample: with the code's smoothing constant 2.5 and the constant
frame time `deltaTime = 1`, an ornament instance at distance 1 from its new
target is at distance 1.5 after one frame: the distance to the target strictly
increases, refuting both the strict-decrease and the no-overshoot parts of the
claim as stated for an arbitrary positive rate. -/
theorem emojiPos_overshoot_counterexample :
    dist3 (emojiStepPos ⟨1, 0, 0⟩ ⟨0, 0, 0⟩ 1) ⟨0, 0, 0⟩ >
      dist3 (⟨1, 0, 0⟩ : Vec3) ⟨0, 0, 0⟩ := by
  have h1 : dist2 (emojiStepPos ⟨1, 0, 0⟩ ⟨0, 0, 0⟩ 1) ⟨0, 0, 0⟩ = 9 / 4 := by
    norm_num [emojiStepPos, lerp, dist2]
  have h2 : dist2 (⟨1, 0, 0⟩ : Vec3) ⟨0, 0, 0⟩ = 1 := by norm_num [dist2]
  unfold dist3
  rw [h1, h2]
  exact Real.sqrt_lt_sqrt (by norm_num) (by norm_num)

/-- C3 (amended): after a formation flip, for an ornament instance whose
interpolated position differs from the new target, and for constant
`deltaTime` with `0 < 2.5 * deltaTime < 2` and `2.5 * deltaTime ≠ 1` (the
per-frame distance factor is `|1 - 2.5 * deltaTime| < 1`), the euclidean
distance to the target strictly decreases on every frame and never exceeds
the distance at the flip. -/
theorem emojiPos_converges (p0 target : Vec3) (delta : ℝ) (hne : p0 ≠ target)
    (h1 : 0 < delta * 2.5) (h2 : delta * 2.5 < 2) (h3 : delta * 2.5 ≠ 1) (n : ℕ) :
    dist3 (emojiPosSeq p0 target delta (n + 1)) target <
      dist3 (emojiPosSeq p0 target delta n) target ∧
    dist3 (emojiPosSeq p0 target delta n) target ≤ dist3 p0 target := by
  have hne1 : 1 - delta * 2.5 ≠ 0 := fun h => h3 (by linarith)
  have hc0 : 0 < (1 - delta * 2.5) ^ 2 :=
    lt_of_le_of_ne (sq_nonneg _)
      (fun h => hne1 ((pow_eq_zero_iff two_ne_zero).mp h.symm))
  have hc1 : (1 - delta * 2.5) ^ 2 < 1 := by
    nlinarith [mul_pos h1 (show (0 : ℝ) < 2 - delta * 2.5 by linarith)]
  have hd0 : 0 < dist2 p0 target := dist2_pos_of_ne _ _ hne
  have hcn : 0 < ((1 - delta * 2.5) ^ 2) ^ n := pow_pos hc0 n
  constructor
  · apply Real.sqrt_lt_sqrt (dist2_nonneg _ _)
    rw [dist2_emojiPosSeq, dist2_emojiPosSeq, pow_succ]
    nlinarith [mul_pos (show (0 : ℝ) < 1 - (1 - delta * 2.5) ^ 2 by linarith)
      (mul_pos hcn hd0)]
  · apply Real.sqrt_le_sqrt
    rw [dist2_emojiPosSeq]
    have hle1 : ((1 - delta * 2.5) ^ 2) ^ n ≤ 1 :=
      pow_le_one₀ (le_of_lt hc0) (le_of_lt hc1)
    nlinarith

/-- Witness for C3 (amended) at a concrete instance and frame index, with the
rate `2.5 * deltaTime = 1.5` taken inside the overshooting-lerp regime
`(1, 2)` that the amended bounds still admit. -/
theorem emojiPos_converges_witness :
    (⟨1, 0, 0⟩ : Vec3) ≠ ⟨0, 0, 0⟩ ∧ (0 : ℝ) < (3 / 5) * 2.5 ∧
      (3 / 5 : ℝ) * 2.5 < 2 ∧ (3 / 5 : ℝ) * 2.5 ≠ 1 ∧
      (dist3 (emojiPosSeq ⟨1, 0, 0⟩ ⟨0, 0, 0⟩ (3 / 5) 1) ⟨0, 0, 0⟩ <
          dist3 (emojiPosSeq ⟨1, 0, 0⟩ ⟨0, 0, 0⟩ (3 / 5) 0) ⟨0, 0, 0⟩ ∧
        dist3 (emojiPosSeq ⟨1, 0, 0⟩ ⟨0, 0, 0⟩ (3 / 5) 0) ⟨0, 0, 0⟩ ≤
          dist3 ⟨1, 0, 0⟩ ⟨0, 0, 0⟩) :=
  ⟨fun h => one_ne_zero (congrArg Vec3.x h), by norm_num, by norm_num, by norm_num,
    emojiPos_converges ⟨1, 0, 0⟩ ⟨0, 0, 0⟩ (3 / 5)
      (fun h => one_ne_zero (congrArg Vec3.x h)) (by norm_num) (by norm_num)
      (by norm_num) 0⟩

/-- Helper: for a non-negative dividend and positive divisor the JavaScript
remainder agrees with `b * Int.fract (a / b)`. -/
lemma jsMod_eq_fract (a b : ℝ) (ha : 0 ≤ a) (hb : 0 < b) :
    jsMod a b = b * Int.fract (a / b) := by
  unfold jsMod jsTrunc
  rw [if_neg (not_lt.mpr (by positivity))]
  rw [← Int.self_sub_floor]
  have hb0 : b ≠ 0 := ne_of_gt hb
  field_simp

/-- Helper: the JavaScript remainder of a non-negative dividend is
non-negative. -/
lemma jsMod_nonneg (a b : ℝ) (ha : 0 ≤ a) (hb : 0 < b) : 0 ≤ jsMod a b := by
  rw [jsMod_eq_fract a b ha hb]
  exact mul_nonneg (le_of_lt hb) (Int.fract_nonneg _)

/-- Helper: the JavaScript remainder of a non-negative dividend is below the
divisor. -/
lemma jsMod_lt (a b : ℝ) (ha : 0 ≤ a) (hb : 0 < b) : jsMod a b < b := by
  rw [jsMod_eq_fract a b ha hb]
  nlinarith [Int.fract_lt_one (a / b), Int.fract_nonneg (a / b)]

/-- C5: for a ring-0 ripple instance and any elapsed time `t ≥ 0`, the frame
update assigns a strictly positive scale exactly when `(t mod 6.5) < 3.0`, and
a scale of exactly 0 otherwise. -/
theorem rippleScale_ring0_visible_iff (randomOffset time : ℝ)
    (hro : 0 ≤ randomOffset) (ht : 0 ≤ time) :
    (jsMod time 6.5 < 3 → 0 < rippleScale 0 randomOffset time) ∧
    (3 ≤ jsMod time 6.5 → rippleScale 0 randomOffset time = 0) := by
  have hmod0 : 0 ≤ jsMod time 6.5 := jsMod_nonneg time 6.5 ht (by norm_num)
  unfold rippleScale
  simp only [Nat.cast_zero, zero_mul, sub_zero]
  rw [if_neg (not_lt.mpr ht)]
  constructor
  · intro hm
    have hprog : jsMod time 6.5 / 3.0 < 1 := by linarith
    have hprog0 : 0 ≤ jsMod time 6.5 / 3.0 := by positivity
    rw [if_neg (by push_neg; exact ⟨by linarith, by linarith⟩)]
    have hfac1 : (0 : ℝ) < 0.08 + randomOffset * 0.15 := by nlinarith
    have hfac2 : (0 : ℝ) < 1 - jsMod time 6.5 / 3.0 := by linarith
    rw [max_eq_right (le_of_lt hfac2)]
    exact mul_pos hfac1 hfac2
  · intro hm
    by_cases hgt : jsMod time 6.5 / 3.0 > 1
    · rw [if_pos (Or.inl hgt)]
    · have hone : jsMod time 6.5 / 3.0 = 1 := by
        have : jsMod time 6.5 / 3.0 ≥ 1 := by linarith
        linarith [not_lt.mp hgt]
      rw [if_neg (by push_neg; exact ⟨le_of_eq hone, by linarith⟩), hone]
      norm_num

/-- Witness for C5 at the concrete time `t = 1` and `randomOffset = 0`. -/
theorem rippleScale_ring0_visible_iff_witness :
    (0 : ℝ) ≤ 0 ∧ (0 : ℝ) ≤ 1 ∧
      ((jsMod 1 6.5 < 3 → 0 < rippleScale 0 0 1) ∧
        (3 ≤ jsMod 1 6.5 → rippleScale 0 0 1 = 0)) :=
  ⟨le_refl 0, by norm_num, rippleScale_ring0_visible_iff 0 1 (le_refl 0) (by norm_num)⟩

/-- C6 (code bug evidence): with two ornaments of sizes 1 and 10 in the CLOSED
state at constant `delta = 1/10` (lerp factor 0.25) and the dummy's initial
scale 1, the scale written for the first instance on the second frame is
43/16 = 2.6875, contaminated by the second instance's scale through the shared
dummy object; smoothing from the instance's own previous scale (1) toward its
own target (1) would give `lerp 1 1 0.25 = 1`. -/
theorem emojiScale_shared_dummy_bug :
    (emojiFrameScales
        [⟨⟨0, 0, 0⟩, ⟨0, 0, 0⟩, ⟨0, 0, 0⟩, OrnamentType.sphere, "a", 1⟩,
          ⟨⟨0, 0, 0⟩, ⟨0, 0, 0⟩, ⟨0, 0, 0⟩, OrnamentType.sphere, "a", 10⟩]
        TreeState.CLOSED (1 / 10)
        (emojiFrameScales
            [⟨⟨0, 0, 0⟩, ⟨0, 0, 0⟩, ⟨0, 0, 0⟩, OrnamentType.sphere, "a", 1⟩,
              ⟨⟨0, 0, 0⟩, ⟨0, 0, 0⟩, ⟨0, 0, 0⟩, OrnamentType.sphere, "a", 10⟩]
            TreeState.CLOSED (1 / 10) 1).2).1.head? = some (43 / 16) ∧
    (43 / 16 : ℝ) ≠ lerp 1 1 ((1 / 10) * 2.5) := by
  constructor
  · norm_num [emojiFrameScales, emojiScaleStep, lerp]
  · norm_num [lerp]

/-- C7: each camera frame retargets yaw to `(position.x - 0.5) * pi` and the
pitch proxy to `(position.y - 0.5) * pi * 0.5` when a hand is detected, keeps
both targets otherwise, smooths the camera position with factor
`3 * deltaTime` toward `(32 sin yaw, pitch * 20 + 7, 32 cos yaw)`, and looks
at the origin. -/
theorem cameraFrame_spec (camPos : Vec3) (targetRot : Point2) (hd : HandData)
    (delta : ℝ) :
    (hd.detected = true →
      (cameraFrame camPos targetRot hd delta).2.1 =
        ⟨(hd.position.y - 0.5) * Real.pi * 0.5, (hd.position.x - 0.5) * Real.pi⟩) ∧
    (hd.detected = false →
      (cameraFrame camPos targetRot hd delta).2.1 = targetRot) ∧
    (cameraFrame camPos targetRot hd delta).1 =
      ⟨lerp camPos.x (32 * Real.sin (cameraFrame camPos targetRot hd delta).2.1.y)
          (3 * delta),
        lerp camPos.y ((cameraFrame camPos targetRot hd delta).2.1.x * 20 + 7)
          (3 * delta),
        lerp camPos.z (32 * Real.cos (cameraFrame camPos targetRot hd delta).2.1.y)
          (3 * delta)⟩ ∧
    (cameraFrame camPos targetRot hd delta).2.2 = ⟨0, 0, 0⟩ := by
  cases hdet : hd.detected <;>
    simp [cameraFrame, hdet, mul_comm delta 3]

/-- Witness for C7 at a concrete camera state and detected hand signal. -/
theorem cameraFrame_spec_witness :
    (cameraFrame ⟨0, 5, 32⟩ ⟨0, 0⟩ ⟨false, ⟨0, 0, 0⟩, ⟨1, 1⟩, true⟩ 1).2.1 =
      ⟨((1 : ℝ) - 0.5) * Real.pi * 0.5, ((1 : ℝ) - 0.5) * Real.pi⟩ ∧
    (cameraFrame ⟨0, 5, 32⟩ ⟨0, 0⟩ ⟨false, ⟨0, 0, 0⟩, ⟨1, 1⟩, true⟩ 1).2.2 =
      ⟨0, 0, 0⟩ :=
  ⟨(cameraFrame_spec ⟨0, 5, 32⟩ ⟨0, 0⟩ ⟨false, ⟨0, 0, 0⟩, ⟨1, 1⟩, true⟩ 1).1 rfl,
    (cameraFrame_spec ⟨0, 5, 32⟩ ⟨0, 0⟩ ⟨false, ⟨0, 0, 0⟩, ⟨1, 1⟩, true⟩ 1).2.2.2⟩

/-- C8: a snow instance whose `y` falls below -20 during a frame update is
respawned at `y = 30 > 25` with fresh random `x` and `z` inside the volume
bounds `[-30, 30)`, resumes falling on the next frame, and the whole update is
independent of the formation state and the gesture signal. -/
theorem snowStep_respawn (ts ts' : TreeState) (hd hd' : HandData) (s : SnowInst)
    (delta rx rz delta' rx' rz' : ℝ)
    (hfall : s.y - s.speed * delta * 2 < -20)
    (hrx0 : 0 ≤ rx) (hrx1 : rx < 1) (hrz0 : 0 ≤ rz) (hrz1 : rz < 1)
    (hsp : 0 < s.speed) (hdp : 0 < delta') (hsmall : s.speed * delta' * 2 ≤ 50) :
    (snowfallInScene ts hd s delta rx rz).y = 30 ∧
    25 < (snowfallInScene ts hd s delta rx rz).y ∧
    -30 ≤ (snowfallInScene ts hd s delta rx rz).x ∧
    (snowfallInScene ts hd s delta rx rz).x < 30 ∧
    -30 ≤ (snowfallInScene ts hd s delta rx rz).z ∧
    (snowfallInScene ts hd s delta rx rz).z < 30 ∧
    (snowfallInScene ts hd (snowfallInScene ts hd s delta rx rz) delta' rx' rz').y <
      (snowfallInScene ts hd s delta rx rz).y ∧
    snowfallInScene ts hd s delta rx rz = snowfallInScene ts' hd' s delta rx rz := by
  have h1 : snowfallInScene ts hd s delta rx rz =
      { s with y := 30, x := (rx - 0.5) * 60, z := (rz - 0.5) * 60 } := by
    unfold snowfallInScene snowStep
    rw [if_pos hfall]
  have h1' : snowfallInScene ts' hd' s delta rx rz =
      { s with y := 30, x := (rx - 0.5) * 60, z := (rz - 0.5) * 60 } := by
    unfold snowfallInScene snowStep
    rw [if_pos hfall]
  have h2 : (snowfallInScene ts hd (snowfallInScene ts hd s delta rx rz)
      delta' rx' rz').y = 30 - s.speed * delta' * 2 := by
    rw [h1]
    unfold snowfallInScene snowStep
    rw [if_neg (by simp only []; linarith)]
  refine ⟨?_, ?_, ?_, ?_, ?_, ?_, ?_, ?_⟩
  · rw [h1]
  · rw [h1]; norm_num
  · rw [h1]; show (-30 : ℝ) ≤ (rx - 0.5) * 60; nlinarith
  · rw [h1]; show (rx - 0.5) * 60 < 30; nlinarith
  · rw [h1]; show (-30 : ℝ) ≤ (rz - 0.5) * 60; nlinarith
  · rw [h1]; show (rz - 0.5) * 60 < 30; nlinarith
  · rw [h2, h1]; show 30 - s.speed * delta' * 2 < (30 : ℝ); nlinarith
  · rw [h1, h1']

/-- Witness for C8 at a concrete snow instance and random draws. -/
theorem snowStep_respawn_witness :
    (snowfallInScene TreeState.CLOSED notDetectedHand
        ⟨0, 0, 0, 1, 0, 1 / 10, 0⟩ 11 (1 / 2) (1 / 2)).y = 30 ∧
    25 < (snowfallInScene TreeState.CLOSED notDetectedHand
        ⟨0, 0, 0, 1, 0, 1 / 10, 0⟩ 11 (1 / 2) (1 / 2)).y ∧
    -30 ≤ (snowfallInScene TreeState.CLOSED notDetectedHand
        ⟨0, 0, 0, 1, 0, 1 / 10, 0⟩ 11 (1 / 2) (1 / 2)).x ∧
    (snowfallInScene TreeState.CLOSED notDetectedHand
        ⟨0, 0, 0, 1, 0, 1 / 10, 0⟩ 11 (1 / 2) (1 / 2)).x < 30 ∧
    -30 ≤ (snowfallInScene TreeState.CLOSED notDetectedHand
        ⟨0, 0, 0, 1, 0, 1 / 10, 0⟩ 11 (1 / 2) (1 / 2)).z ∧
    (snowfallInScene TreeState.CLOSED notDetectedHand
        ⟨0, 0, 0, 1, 0, 1 / 10, 0⟩ 11 (1 / 2) (1 / 2)).z < 30 ∧
    (snowfallInScene TreeState.CLOSED notDetectedHand
        (snowfallInScene TreeState.CLOSED notDetectedHand
          ⟨0, 0, 0, 1, 0, 1 / 10, 0⟩ 11 (1 / 2) (1 / 2)) 1 0 0).y <
      (snowfallInScene TreeState.CLOSED notDetectedHand
        ⟨0, 0, 0, 1, 0, 1 / 10, 0⟩ 11 (1 / 2) (1 / 2)).y ∧
    snowfallInScene TreeState.CLOSED notDetectedHand
        ⟨0, 0, 0, 1, 0, 1 / 10, 0⟩ 11 (1 / 2) (1 / 2) =
      snowfallInScene TreeState.SCATTERED
        ⟨true, ⟨0, 0, 0⟩, ⟨0, 0⟩, true⟩ ⟨0, 0, 0, 1, 0, 1 / 10, 0⟩ 11 (1 / 2) (1 / 2) :=
  snowStep_respawn TreeState.CLOSED TreeState.SCATTERED notDetectedHand
    ⟨true, ⟨0, 0, 0⟩, ⟨0, 0⟩, true⟩ ⟨0, 0, 0, 1, 0, 1 / 10, 0⟩ 11 (1 / 2) (1 / 2) 1 0 0
    (by norm_num) (by norm_num) (by norm_num) (by norm_num) (by norm_num)
    (by norm_num) (by norm_num) (by norm_num)

/-- C9 (code bug evidence): `delta` reaches every exponential-smoothing
formula unclamped; at `delta = 1` the `TreeTopStar` opacity smoothing
overshoots its target 0, jumping from 1 to -2 in a single frame. -/
theorem starOpacity_unclamped_overshoot :
    starOpacityStep 1 TreeState.SCATTERED 1 = -2 ∧
    starOpacityStep 1 TreeState.SCATTERED 1 < 0 := by
  unfold starOpacityStep lerp
  rw [if_neg (fun h => TreeState.noConfusion h)]
  constructor <;> norm_num

/-- C10: the meteor scale is `size * (1 + 0.3 * sin(3 t + phase))` times a
formation factor that is 1 when CLOSED and 0.3 when SCATTERED, so a scattered
meteor is rendered at 30 percent of its gathered size at the same instant. -/
theorem meteorScale_formation_factor (size phase time : ℝ) :
    meteorScale size phase time TreeState.CLOSED =
      size * (1 + 0.3 * Real.sin (3 * time + phase)) ∧
    meteorScale size phase time TreeState.SCATTERED =
      0.3 * (size * (1 + 0.3 * Real.sin (3 * time + phase))) := by
  unfold meteorScale
  rw [mul_comm time 3]
  refine ⟨?_, ?_⟩
  · rw [if_pos rfl]; ring
  · rw [if_neg (fun h => TreeState.noConfusion h)]; ring
